import Mathlib

/-!
Shallow embedding of the tauri-plugin-iap repository (Rust) in Lean 4,
covering the Windows Store adapter (src/windows.rs), the domain model
(src/models.rs), and the Apple-platform adapters (src/apple.rs,
src/macos.rs), together with theorems settling the frozen claims about
the natural-language specification.
-/

namespace Iap

/-! ## Character model for the price-string normalizer

`convert_store_product_to_product` in src/windows.rs inspects the native
"formatted base price" string only through the predicates
`char::is_numeric()` and `== '.'`, and then hands the filtered string to
`str::parse::<f64>`, whose decimal grammar accepts only ASCII digits and
at most one dot (sign / exponent / inf / nan characters are not numeric
and are removed by the filter, so they are unreachable here).  We embed a
character by exactly the distinctions that code observes: an ASCII digit
with its value, the dot, a Unicode-numeric character that is not an ASCII
digit (kept by the filter, rejected by the float parser), or any other
character (dropped by the filter). -/
inductive PChar
  /-- an ASCII digit with value `d` -/
  | digit (d : Fin 10)
  /-- the character a dot: kept by the filter, special in the parser -/
  | dot
  /-- a Unicode character with `char::is_numeric() = true` that is not an
  ASCII digit (e.g. a Devanagari digit or a vulgar fraction) -/
  | numOther
  /-- any character that is neither numeric nor a dot -/
  | other
deriving DecidableEq

/-- Rust `char::is_numeric()` on the embedded character. -/
def rust_is_numeric : PChar → Bool
  | .digit _ => true
  | .numOther => true
  | _ => false

/-- Whether the embedded character is an ASCII digit `0`..`9`. -/
def is_ascii_digit : PChar → Bool
  | .digit _ => true
  | _ => false

/-- Whether the embedded character is the dot. -/
def is_dot : PChar → Bool
  | .dot => true
  | _ => false

/-- Numeric value of an ASCII digit (0 for anything else). -/
def digit_val : PChar → ℕ
  | .digit d => d.val
  | _ => 0

/-- Value of a run of ASCII digits read most-significant first. -/
def digits_to_nat (l : List PChar) : ℕ :=
  l.foldl (fun acc c => 10 * acc + digit_val c) 0

/-- The filter `.chars().filter(|c| c.is_numeric() || *c == '.')` from
src/windows.rs lines 153-156: keep numeric characters and dots. -/
def strip_non_numeric (l : List PChar) : List PChar :=
  l.filter fun c => rust_is_numeric c || is_dot c

/-- Rust `str::parse::<f64>()` restricted to the strings reachable after
`strip_non_numeric` (only numeric characters and dots).  The parse
succeeds exactly on `Digits '.'? Digits? | '.' Digits`, i.e. on strings
of ASCII digits and at most one dot holding at least one digit; any
non-ASCII numeric character makes it fail.  The parsed value is modeled
as the exact decimal rational (the rounding of the decimal to the
nearest `f64` is below the resolution of every statement proved here). -/
def parse_decimal (l : List PChar) : Option ℚ :=
  if (l.all fun c => is_ascii_digit c || is_dot c) = true
      ∧ l.countP is_dot ≤ 1 ∧ 0 < l.countP is_ascii_digit then
    let int_digits := l.takeWhile fun c => ! is_dot c
    let frac_digits := (l.dropWhile fun c => ! is_dot c).drop 1
    some ((digits_to_nat int_digits : ℚ)
      + (digits_to_nat frac_digits : ℚ) / 10 ^ frac_digits.length)
  else
    none

/-- Smallest `i64` value. -/
def I64_MIN : ℤ := -9223372036854775808

/-- Largest `i64` value. -/
def I64_MAX : ℤ := 9223372036854775807

/-- Rust `as i64` applied to a non-NaN float value: truncation toward
zero (floor for non-negative values, ceiling for negative ones),
saturating at the `i64` bounds; the float value itself is modeled as an
exact rational. -/
def f64_as_i64 (q : ℚ) : ℤ :=
  max I64_MIN (min I64_MAX (if 0 ≤ q then ⌊q⌋ else ⌈q⌉))

/-! ## Domain model (src/models.rs) -/

/-- One pricing phase of a subscription offer (src/models.rs). -/
structure PricingPhase where
  formatted_price : String
  price_currency_code : String
  price_amount_micros : ℤ
  billing_period : String
  billing_cycle_count : ℤ
  recurrence_mode : ℤ
deriving DecidableEq

/-- A subscription offer (src/models.rs). -/
structure SubscriptionOffer where
  offer_token : String
  base_plan_id : String
  offer_id : Option String
  pricing_phases : List PricingPhase
deriving DecidableEq

/-- A catalog product (src/models.rs).  The formatted base price carried
inside the native product is embedded as a `List PChar`; the remaining
strings play no algorithmic role and stay `String`. -/
structure Product where
  product_id : String
  title : String
  description : String
  product_type : String
  formatted_price : Option String
  price_currency_code : Option String
  price_amount_micros : Option ℤ
  subscription_offer_details : Option (List SubscriptionOffer)
deriving DecidableEq

/-- Response of getProducts (src/models.rs). -/
structure GetProductsResponse where
  products : List Product
deriving DecidableEq

/-- A purchase record (src/models.rs).  `purchase_state` is the `i32`
produced by `PurchaseStateValue as i32`. -/
structure Purchase where
  order_id : Option String
  package_name : String
  product_id : String
  purchase_time : ℤ
  purchase_token : String
  purchase_state : ℤ
  is_auto_renewing : Bool
  is_acknowledged : Bool
  original_json : String
  signature : String
deriving DecidableEq

/-- Response of restorePurchases (src/models.rs). -/
structure RestorePurchasesResponse where
  purchases : List Purchase
deriving DecidableEq

/-- A purchase-history record (src/models.rs). -/
structure PurchaseHistoryRecord where
  product_id : String
  purchase_time : ℤ
  purchase_token : String
  quantity : ℤ
  original_json : String
  signature : String
deriving DecidableEq

/-- Response of getPurchaseHistory (src/models.rs). -/
structure GetPurchaseHistoryResponse where
  history : List PurchaseHistoryRecord
deriving DecidableEq

/-- Response of the initialize operation (src/models.rs). -/
structure InitializeResponse where
  success : Bool
deriving DecidableEq

/-- Response of acknowledgePurchase (src/models.rs). -/
structure AcknowledgePurchaseResponse where
  success : Bool
deriving DecidableEq

/-- The closed purchase-state enum of src/models.rs. -/
inductive PurchaseStateValue
  | purchased
  | canceled
  | pending
deriving DecidableEq

/-- The `as i32` view of `PurchaseStateValue` (discriminants 0, 1, 2 in
declaration order, as in src/models.rs lines 146-151). -/
def PurchaseStateValue.toInt : PurchaseStateValue → ℤ
  | .purchased => 0
  | .canceled => 1
  | .pending => 2

/-- `Deserialize for PurchaseStateValue` (src/models.rs lines 162-177):
the incoming value has already been decoded as an `i32`; the match
accepts exactly 0, 1, 2 and otherwise produces the custom decode error
`"Invalid purchase state: {value}"`. -/
def purchaseStateValue_deserialize (value : ℤ) : Except String PurchaseStateValue :=
  if value = 0 then Except.ok PurchaseStateValue.purchased
  else if value = 1 then Except.ok PurchaseStateValue.canceled
  else if value = 2 then Except.ok PurchaseStateValue.pending
  else Except.error ("Invalid purchase state: " ++ toString value)

/-- Product ownership status (src/models.rs). -/
structure ProductStatus where
  product_id : String
  is_owned : Bool
  purchase_state : Option PurchaseStateValue
  purchase_time : Option ℤ
  expiration_time : Option ℤ
  is_auto_renewing : Option Bool
  is_acknowledged : Option Bool
  purchase_token : Option String
deriving DecidableEq

/-! ## Windows adapter (src/windows.rs) -/

/-- Windows `DateTime` to Unix milliseconds (src/windows.rs lines 47-57):
divide the 100-nanosecond tick count by `WINDOWS_TICK` (truncating `i64`
division, hence `Int.tdiv`), subtract the 1601-to-1970 offset in seconds,
and scale to milliseconds.  For any `i64` tick count the final product
is at most about 9.3e14 in magnitude, so the `i64` arithmetic never
overflows and plain `ℤ` arithmetic is exact. -/
def datetime_to_unix_millis (windows_ticks : ℤ) : ℤ :=
  let WINDOWS_TICK : ℤ := 10000000
  let SEC_TO_UNIX_EPOCH : ℤ := 11644473600
  let seconds_since_1601 := Int.tdiv windows_ticks WINDOWS_TICK
  let unix_seconds := seconds_since_1601 - SEC_TO_UNIX_EPOCH
  unix_seconds * 1000

/-- Subscription info of a native SKU (`StoreSubscriptionInfo`): a
billing-period count (`u32`) and a duration-unit discriminant (`i32`). -/
structure SubscriptionInfo where
  billing_period : ℕ
  billing_period_unit : ℤ
deriving DecidableEq

/-- A native SKU as read by `convert_store_product_to_product`: its store
id, the formatted price of the SKU and its optional subscription info
(`sku.SubscriptionInfo()` errors when absent, which the code treats as
"no info", hence `Option`). -/
structure StoreSku where
  store_id : String
  formatted_price : String
  subscription_info : Option SubscriptionInfo
deriving DecidableEq

/-- The price object of a native product (`StorePrice`) as read by the
conversion: display price, currency code, and the formatted base price
whose characters feed the numeric normalizer. -/
structure StorePrice where
  formatted_price : String
  currency_code : String
  formatted_base_price : List PChar
deriving DecidableEq

/-- A native `StoreProduct` as read by `convert_store_product_to_product`.
The fallible WinRT property getters are modeled as plain fields: a getter
failure aborts the conversion before any of the behavior described by the
claims, and the claims all concern the success path. -/
structure StoreProduct where
  store_id : String
  title : String
  description : String
  price : StorePrice
  skus : List StoreSku
deriving DecidableEq

/-- The ISO-8601 billing-period encoding of src/windows.rs lines 185-195:
`P<count><U>` with `U` one of `D | W | M | Y` by unit discriminant,
defaulting to `M`. -/
def billing_period_string (count : ℕ) (unit : ℤ) : String :=
  "P" ++ toString count ++
    (if unit = 0 then "D"
     else if unit = 1 then "W"
     else if unit = 2 then "M"
     else if unit = 3 then "Y"
     else "M")

/-- `convert_store_product_to_product` (src/windows.rs lines 132-236):
strip the formatted base price to numeric characters and dots, parse it
as a decimal defaulting to 0, scale by 1,000,000 with an `as i64` cast,
and assemble the `Product`; for subscription queries additionally build
one offer per SKU that carries subscription info. -/
def convert_store_product_to_product (store_product : StoreProduct)
    (product_type : String) : Product :=
  let product_id := store_product.store_id
  let title := store_product.title
  let description := store_product.description
  let formatted_price := store_product.price.formatted_price
  let currency_code := store_product.price.currency_code
  let formatted_base_price := store_product.price.formatted_base_price
  let price_value := (parse_decimal (strip_non_numeric formatted_base_price)).getD 0
  let price_amount_micros := f64_as_i64 (price_value * 1000000)
  let subscription_offer_details :=
    if product_type = "subs" then
      let offers := store_product.skus.filterMap fun sku =>
        match sku.subscription_info with
        | some info =>
          some { offer_token := sku.store_id
                 base_plan_id := sku.store_id
                 offer_id := none
                 pricing_phases := [{
                   formatted_price := sku.formatted_price
                   price_currency_code := currency_code
                   price_amount_micros := price_amount_micros
                   billing_period :=
                     billing_period_string info.billing_period info.billing_period_unit
                   billing_cycle_count := 0
                   recurrence_mode := 1 : PricingPhase }] : SubscriptionOffer }
        | none => none
      if ! offers.isEmpty then some offers else none
    else
      none
  { product_id := product_id
    title := title
    description := description
    product_type := product_type
    formatted_price := some formatted_price
    price_currency_code := some currency_code
    price_amount_micros := some price_amount_micros
    subscription_offer_details := subscription_offer_details }

/-- A native `StoreLicense` as read by the Windows adapter: in-app offer
token, SKU store id, active flag, and expiration date in 100-nanosecond
ticks since 1601 (`DateTime.UniversalTime`, an `i64`). -/
structure StoreLicense where
  in_app_offer_token : String
  sku_store_id : String
  is_active : Bool
  expiration_date : ℤ
deriving DecidableEq

/-- `convert_license_to_purchase` (src/windows.rs lines 360-405).  The
app package name (`self.app_handle.package_info().name`) and the current
wall-clock time in Unix milliseconds (`SystemTime::now()`) are explicit
parameters of the model. -/
def convert_license_to_purchase (package_name : String) (now_millis : ℤ)
    (license : StoreLicense) (product_type : String) : Purchase :=
  let product_id := license.in_app_offer_token
  let sku_store_id := license.sku_store_id
  let is_active := license.is_active
  let expiration_millis := datetime_to_unix_millis license.expiration_date
  let purchase_time :=
    if product_type = "subs" ∧ 0 < expiration_millis then
      expiration_millis - (30 * 24 * 60 * 60 * 1000)
    else
      now_millis
  let purchase_state :=
    if is_active then PurchaseStateValue.purchased.toInt
    else PurchaseStateValue.canceled.toInt
  { order_id := some sku_store_id
    package_name := package_name
    product_id := product_id
    purchase_time := purchase_time
    purchase_token := sku_store_id
    purchase_state := purchase_state
    is_auto_renewing := (product_type == "subs") && is_active
    is_acknowledged := true
    original_json := "\x7b\"isActive\":" ++ toString is_active
      ++ ",\"expirationDate\":" ++ toString expiration_millis ++ "\x7d"
    signature := "" }

/-- The add-on license collection of the native app license
(`StoreAppLicense.AddOnLicenses`), a map from product key to license;
`restore_purchases` iterates its entries and `get_product_status` uses
`HasKey`/`Lookup`, both modeled on an association list. -/
structure AppLicense where
  addon_licenses : List (String × StoreLicense)
deriving DecidableEq

/-- The environment of the Windows license-based operations: the lazily
created `StoreContext` (`get_store_context`, which can fail) and the
result of the native `GetAppLicenseAsync` query. -/
structure WinLicenseEnv where
  context_result : Except String Unit
  app_license_result : Except String AppLicense

/-- `restore_purchases` of the Windows adapter (src/windows.rs lines
326-358): fetch the app license, convert every add-on license to a
`Purchase`, and keep only those whose state is `Purchased`. -/
def win_restore_purchases (env : WinLicenseEnv) (package_name : String)
    (now_millis : ℤ) (product_type : String) :
    Except String RestorePurchasesResponse :=
  match env.context_result with
  | Except.error e => Except.error e
  | Except.ok _ =>
    match env.app_license_result with
    | Except.error e => Except.error ("Failed to get app license: " ++ e)
    | Except.ok app_license =>
      let purchases :=
        (app_license.addon_licenses.map fun kv =>
          convert_license_to_purchase package_name now_millis kv.2 product_type).filter
          fun purchase =>
            purchase.purchase_state = PurchaseStateValue.purchased.toInt
      Except.ok { purchases := purchases }

/-- `get_product_status` of the Windows adapter (src/windows.rs lines
416-482): look the product key up in the add-on licenses; with a license
present report ownership and license detail, otherwise report
`is_owned = false` with every optional field unset. -/
def win_get_product_status (env : WinLicenseEnv) (product_id : String)
    (product_type : String) : Except String ProductStatus :=
  match env.context_result with
  | Except.error e => Except.error e
  | Except.ok _ =>
    match env.app_license_result with
    | Except.error e => Except.error ("Failed to get app license: " ++ e)
    | Except.ok app_license =>
      match app_license.addon_licenses.lookup product_id with
      | some license =>
        let is_active := license.is_active
        let expiration_time := datetime_to_unix_millis license.expiration_date
        let purchase_time :=
          if product_type = "subs" ∧ 0 < expiration_time then
            expiration_time - (30 * 24 * 60 * 60 * 1000)
          else
            expiration_time
        let purchase_state :=
          if is_active then some PurchaseStateValue.purchased
          else some PurchaseStateValue.canceled
        Except.ok
          { product_id := product_id
            is_owned := is_active
            purchase_state := purchase_state
            purchase_time := some purchase_time
            expiration_time :=
              if 0 < expiration_time then some expiration_time else none
            is_auto_renewing := some ((product_type == "subs") && is_active)
            is_acknowledged := some true
            purchase_token := some license.sku_store_id }
      | none =>
        Except.ok
          { product_id := product_id
            is_owned := false
            purchase_state := none
            purchase_time := none
            expiration_time := none
            is_auto_renewing := none
            is_acknowledged := none
            purchase_token := none }

/-- Discriminants of the WinRT `StorePurchaseStatus` enum consumed by the
`purchase` match: Succeeded, AlreadyPurchased, NotPurchased,
NetworkError, ServerError. -/
def StorePurchaseStatus.Succeeded : ℤ := 0

/-- `StorePurchaseStatus::AlreadyPurchased`. -/
def StorePurchaseStatus.AlreadyPurchased : ℤ := 1

/-- `StorePurchaseStatus::NotPurchased` (the user-cancellation outcome). -/
def StorePurchaseStatus.NotPurchased : ℤ := 2

/-- `StorePurchaseStatus::NetworkError`. -/
def StorePurchaseStatus.NetworkError : ℤ := 3

/-- `StorePurchaseStatus::ServerError`. -/
def StorePurchaseStatus.ServerError : ℤ := 4

/-- The status match of `purchase` (src/windows.rs lines 280-291): map a
native purchase status to a purchase state or to the corresponding error. -/
def purchase_state_of_status (status : ℤ) : Except String ℤ :=
  if status = StorePurchaseStatus.Succeeded then
    Except.ok PurchaseStateValue.purchased.toInt
  else if status = StorePurchaseStatus.AlreadyPurchased then
    Except.ok PurchaseStateValue.purchased.toInt
  else if status = StorePurchaseStatus.NotPurchased then
    Except.ok PurchaseStateValue.canceled.toInt
  else if status = StorePurchaseStatus.NetworkError then
    Except.error ("Network error during purchase")
  else if status = StorePurchaseStatus.ServerError then
    Except.error ("Server error during purchase")
  else
    Except.error ("Purchase failed")

/-- Options of the purchase request (src/models.rs). -/
structure PurchaseOptions where
  offer_token : Option String
  obfuscated_account_id : Option String
  obfuscated_profile_id : Option String
deriving DecidableEq

/-- The environment of the Windows `purchase` operation: the store
context, the outcome of the internal `get_products` existence check, the
status of the native purchase request (with or without purchase
properties, both branches surface only through this status), the message
of `purchase_result.ExtendedError()` (empty when absent), the package
name, and the wall clock in Unix milliseconds. -/
structure WinPurchaseEnv where
  context_result : Except String Unit
  products_result : Except String GetProductsResponse
  status : ℤ
  error_message : String
  package_name : String
  now_millis : ℤ

/-- `purchase` of the Windows adapter (src/windows.rs lines 238-324):
ensure the product exists, issue the native purchase request, map the
native status (errors for network/server/unknown statuses), and mint the
synthetic purchase record with token `"win_<productId>_<time>"`. -/
def win_purchase (env : WinPurchaseEnv) (product_id : String)
    (product_type : String) (_options : Option PurchaseOptions) :
    Except String Purchase :=
  match env.context_result with
  | Except.error e => Except.error e
  | Except.ok _ =>
    match env.products_result with
    | Except.error e => Except.error e
    | Except.ok products_response =>
      if products_response.products.isEmpty then
        Except.error ("Product not found")
      else
        match purchase_state_of_status env.status with
        | Except.error e => Except.error e
        | Except.ok purchase_state =>
          let purchase_time := env.now_millis
          let purchase_token :=
            "win_" ++ product_id ++ "_" ++ toString purchase_time
          Except.ok
            { order_id := some purchase_token
              package_name := env.package_name
              product_id := product_id
              purchase_time := purchase_time
              purchase_token := purchase_token
              purchase_state := purchase_state
              is_auto_renewing := product_type == "subs"
              is_acknowledged := true
              original_json := "\x7b\"status\":" ++ toString env.status
                ++ ",\"message\":\"" ++ env.error_message
                ++ "\",\"productId\":\"" ++ product_id ++ "\"\x7d"
              signature := "" }

/-! ## Apple-platform adapters (src/macos.rs and src/apple.rs)

src/lib.rs selects the `apple` module as the backend for both macOS and
iOS (`#[cfg(any(target_os = "macos", target_os = "ios"))] use apple::Iap`).
src/macos.rs is a second, swift-bridge-based implementation that guards
each of its operations with `codesign::is_signature_valid()`; src/apple.rs
performs no such validation.  Both are embedded; nondeterminism of the
outside world (signature validity, native responses) is an explicit
environment, and each modeled operation additionally reports whether the
native Swift layer was invoked. -/

/-- The `FFIResult` enum of the swift-bridge module in src/macos.rs. -/
inductive FFIResult
  /-- a JSON string from Swift -/
  | ok (response : String)
  /-- an error message from Swift -/
  | err (message : String)
deriving DecidableEq

/-- `Iap::to_result` of src/macos.rs lines 80-88: an `Ok` payload is
deserialized (the serde decoding is the `decode` parameter), an `Err`
message becomes the error. -/
def to_result {α : Type} (decode : String → Except String α) :
    FFIResult → Except String α
  | FFIResult.ok response => decode response
  | FFIResult.err e => Except.error e

/-- Environment of the src/macos.rs adapter: the outcome of
`codesign::is_signature_valid()` for the running binary, and the native
Swift function of each bridged operation. -/
structure MacosEnv where
  sig_check : Except String Unit
  ffi_init : Unit → FFIResult
  ffi_get_products : List String → String → FFIResult
  ffi_purchase : String → String → Option String → FFIResult
  ffi_restore_purchases : String → FFIResult
  ffi_acknowledge_purchase : String → FFIResult
  ffi_get_product_status : String → String → FFIResult

/-- `initialize` of src/macos.rs (lines 90-94): validate the code
signature, then call the Swift side.  The second component records
whether the native Swift function was invoked. -/
def macos_init_op (env : MacosEnv)
    (decode : String → Except String InitializeResponse) :
    Except String InitializeResponse × Bool :=
  match env.sig_check with
  | Except.error e => (Except.error e, false)
  | Except.ok _ => (to_result decode (env.ffi_init ()), true)

/-- `get_products` of src/macos.rs (lines 96-104). -/
def macos_get_products_op (env : MacosEnv)
    (decode : String → Except String GetProductsResponse)
    (product_ids : List String) (product_type : String) :
    Except String GetProductsResponse × Bool :=
  match env.sig_check with
  | Except.error e => (Except.error e, false)
  | Except.ok _ =>
    (to_result decode (env.ffi_get_products product_ids product_type), true)

/-- `purchase` of src/macos.rs (lines 106-115). -/
def macos_purchase_op (env : MacosEnv)
    (decode : String → Except String Purchase) (product_id : String)
    (product_type : String) (offer_token : Option String) :
    Except String Purchase × Bool :=
  match env.sig_check with
  | Except.error e => (Except.error e, false)
  | Except.ok _ =>
    (to_result decode (env.ffi_purchase product_id product_type offer_token), true)

/-- `restore_purchases` of src/macos.rs (lines 117-124). -/
def macos_restore_purchases_op (env : MacosEnv)
    (decode : String → Except String RestorePurchasesResponse)
    (product_type : String) : Except String RestorePurchasesResponse × Bool :=
  match env.sig_check with
  | Except.error e => (Except.error e, false)
  | Except.ok _ =>
    (to_result decode (env.ffi_restore_purchases product_type), true)

/-- `acknowledge_purchase` of src/macos.rs (lines 126-133). -/
def macos_acknowledge_purchase_op (env : MacosEnv)
    (decode : String → Except String AcknowledgePurchaseResponse)
    (purchase_token : String) :
    Except String AcknowledgePurchaseResponse × Bool :=
  match env.sig_check with
  | Except.error e => (Except.error e, false)
  | Except.ok _ =>
    (to_result decode (env.ffi_acknowledge_purchase purchase_token), true)

/-- `get_product_status` of src/macos.rs (lines 135-143). -/
def macos_get_product_status_op (env : MacosEnv)
    (decode : String → Except String ProductStatus) (product_id : String)
    (product_type : String) : Except String ProductStatus × Bool :=
  match env.sig_check with
  | Except.error e => (Except.error e, false)
  | Except.ok _ =>
    (to_result decode (env.ffi_get_product_status product_id product_type), true)

/-- Environment of the src/apple.rs adapter (the backend src/lib.rs
selects for macOS and iOS): the validity of the running binary's code
signature in this world — which src/apple.rs never consults — and the
already-deserialized result of `run_swift_plugin` for each operation. -/
structure AppleEnv where
  sig_check : Except String Unit
  swift_init : Unit → Except String InitializeResponse
  swift_get_products : List String → String → Except String GetProductsResponse
  swift_purchase : String → String → Option String → Except String Purchase
  swift_restore_purchases : String → Except String RestorePurchasesResponse
  swift_get_purchase_history : Unit → Except String GetPurchaseHistoryResponse
  swift_acknowledge_purchase : String → Except String AcknowledgePurchaseResponse
  swift_get_product_status : String → String → Except String ProductStatus

/-- `initialize` of src/apple.rs (lines 22-27): the Swift plugin is
invoked unconditionally; no code-signature validation happens first. -/
def apple_init_op (env : AppleEnv) : Except String InitializeResponse × Bool :=
  (env.swift_init (), true)

/-- `get_purchase_history` of src/apple.rs (lines 47-51): invoked
unconditionally; src/macos.rs has no counterpart for this operation. -/
def apple_get_purchase_history_op (env : AppleEnv) :
    Except String GetPurchaseHistoryResponse × Bool :=
  (env.swift_get_purchase_history (), true)

/-- Whether an `Except` value is a success. -/
def except_is_ok {ε α : Type} : Except ε α → Bool
  | Except.ok _ => true
  | Except.error _ => false

/-! ## Concrete sample inputs used by witnesses and counterexamples -/

/-- A native product whose formatted base price is `"abc"`: three
non-numeric characters, so the stripped string is empty and unparsable. -/
def sample_unparsable_product : StoreProduct :=
  { store_id := "p1"
    title := "Product One"
    description := "d"
    price :=
      { formatted_price := "abc"
        currency_code := "USD"
        formatted_base_price := [PChar.other, PChar.other, PChar.other] }
    skus := [] }

/-- A native subscription product whose formatted base price is a single
Unicode numeric character that is not an ASCII digit (e.g. `"½"`): the
filter keeps it, the decimal parse rejects it. -/
def sample_unparsable_product2 : StoreProduct :=
  { store_id := "p2"
    title := "Product Two"
    description := "d"
    price :=
      { formatted_price := "½"
        currency_code := "USD"
        formatted_base_price := [PChar.numOther] }
    skus := [{ store_id := "sku2"
               formatted_price := "½"
               subscription_info := some { billing_period := 1, billing_period_unit := 2 } }] }

/-- A native product whose formatted base price is `"$2.0000009"`: the
stripped string parses to 2.0000009, whose micros value distinguishes
truncation (2000000) from rounding (2000001). -/
def sample_truncating_product : StoreProduct :=
  { store_id := "p3"
    title := "Product Three"
    description := "d"
    price :=
      { formatted_price := "$2.0000009"
        currency_code := "USD"
        formatted_base_price :=
          [PChar.other, PChar.digit 2, PChar.dot, PChar.digit 0, PChar.digit 0,
           PChar.digit 0, PChar.digit 0, PChar.digit 0, PChar.digit 0, PChar.digit 9] }
    skus := [] }

/-- A native product whose formatted base price is `"$1.5"`. -/
def sample_half_product : StoreProduct :=
  { store_id := "p4"
    title := "Product Four"
    description := "d"
    price :=
      { formatted_price := "$1.5"
        currency_code := "USD"
        formatted_base_price := [PChar.other, PChar.digit 1, PChar.dot, PChar.digit 5] }
    skus := [] }

/-- An active add-on license expiring at tick 126227808000000000
(2001-01-01T00:00:00Z, i.e. Unix millisecond 978307200000). -/
def license_a : StoreLicense :=
  { in_app_offer_token := "prod_a"
    sku_store_id := "sku_a"
    is_active := true
    expiration_date := 126227808000000000 }

/-- An inactive add-on license. -/
def license_b : StoreLicense :=
  { in_app_offer_token := "prod_b"
    sku_store_id := "sku_b"
    is_active := false
    expiration_date := 126227808000000000 }

/-- A Windows license environment holding one active and one inactive
add-on license. -/
def win_env_sample : WinLicenseEnv :=
  { context_result := Except.ok ()
    app_license_result :=
      Except.ok { addon_licenses := [("prod_a", license_a), ("prod_b", license_b)] } }

/-- A Windows license environment with no add-on licenses. -/
def win_env_empty : WinLicenseEnv :=
  { context_result := Except.ok ()
    app_license_result := Except.ok { addon_licenses := [] } }

/-- A placeholder catalog product for the purchase existence check. -/
def product_stub : Product :=
  { product_id := "prod_a"
    title := "Product A"
    description := "d"
    product_type := "inapp"
    formatted_price := none
    price_currency_code := none
    price_amount_micros := none
    subscription_offer_details := none }

/-- A Windows purchase environment whose native purchase request reports
`NotPurchased` (the user-cancellation outcome). -/
def win_purchase_env_cancel : WinPurchaseEnv :=
  { context_result := Except.ok ()
    products_result := Except.ok { products := [product_stub] }
    status := StorePurchaseStatus.NotPurchased
    error_message := ""
    package_name := "app"
    now_millis := 1700000000000 }

/-- A src/macos.rs environment whose code-signature validation fails. -/
def macos_env_bad : MacosEnv :=
  { sig_check := Except.error ("Code signature validation failed: OSStatus -67062")
    ffi_init := fun _ => FFIResult.err ("unreached")
    ffi_get_products := fun _ _ => FFIResult.err ("unreached")
    ffi_purchase := fun _ _ _ => FFIResult.err ("unreached")
    ffi_restore_purchases := fun _ => FFIResult.err ("unreached")
    ffi_acknowledge_purchase := fun _ => FFIResult.err ("unreached")
    ffi_get_product_status := fun _ _ => FFIResult.err ("unreached") }

/-- A src/apple.rs environment in a world where the running binary's code
signature does not validate. -/
def apple_env_bad : AppleEnv :=
  { sig_check := Except.error ("Code signature validation failed: OSStatus -67062")
    swift_init := fun _ => Except.ok { success := true }
    swift_get_products := fun _ _ => Except.ok { products := [] }
    swift_purchase := fun _ _ _ => Except.error ("not purchased")
    swift_restore_purchases := fun _ => Except.ok { purchases := [] }
    swift_get_purchase_history := fun _ => Except.ok { history := [] }
    swift_acknowledge_purchase := fun _ => Except.ok { success := true }
    swift_get_product_status := fun _ _ => Except.error ("no license") }

/-- A serde decoder stub for the macOS witness environment. -/
def decode_stub {α : Type} : String → Except String α :=
  fun _ => Except.error ("decode unused")

/-- The product status the Windows adapter reports for `license_a` under
a non-subscription query. -/
def status_a : ProductStatus :=
  { product_id := "prod_a"
    is_owned := true
    purchase_state := some PurchaseStateValue.purchased
    purchase_time := some 978307200000
    expiration_time := some 978307200000
    is_auto_renewing := some false
    is_acknowledged := some true
    purchase_token := some "sku_a" }

/-! ## Claims -/

/-- The `as i64` cast of the float value 0 is 0. -/
theorem f64_as_i64_zero : f64_as_i64 0 = 0 := by
  norm_num [f64_as_i64, I64_MIN, I64_MAX]

/-- Claim C1, amended.  The Windows adapter's product conversion never
omits `priceAmountMicros`: the field is always present, and when the
stripped base-price string does not parse as a decimal it holds the value
0 (the `unwrap_or(0.0)` default of src/windows.rs line 158) instead of
being absent. -/
theorem claim_C1 :
    (∀ sp pt, ((convert_store_product_to_product sp pt).price_amount_micros).isSome = true)
    ∧ ∀ sp pt,
        parse_decimal (strip_non_numeric sp.price.formatted_base_price) = none →
        (convert_store_product_to_product sp pt).price_amount_micros = some 0 := by
  constructor
  · intro sp pt
    rfl
  · intro sp pt h
    show some (f64_as_i64
      ((parse_decimal (strip_non_numeric sp.price.formatted_base_price)).getD 0 * 1000000))
      = some 0
    rw [h]
    show some (f64_as_i64 ((0 : ℚ) * 1000000)) = some 0
    rw [zero_mul, f64_as_i64_zero]

/-- Claim C1's failure on the code: for the base-price string `"abc"`
(whose stripped form is empty and does not parse) the converted product
reports `priceAmountMicros = Some 0`, not an absent field. -/
theorem claim_C1_counterexample :
    parse_decimal (strip_non_numeric sample_unparsable_product.price.formatted_base_price) = none
    ∧ (convert_store_product_to_product sample_unparsable_product ("inapp")).price_amount_micros
        = some 0
    ∧ (convert_store_product_to_product sample_unparsable_product ("inapp")).price_amount_micros
        ≠ none := by
  refine ⟨rfl, ?_, ?_⟩
  · show some (f64_as_i64 ((0 : ℚ) * 1000000)) = some 0
    rw [zero_mul, f64_as_i64_zero]
  · show some (f64_as_i64 ((0 : ℚ) * 1000000)) ≠ none
    intro hc
    exact Option.noConfusion hc

/-- Witness for claim C1's amended theorem at the concrete unparsable
base-price string `"½"` under a subscription query. -/
theorem claim_C1_witness :
    (convert_store_product_to_product sample_unparsable_product2 ("subs")).price_amount_micros
      = some 0 :=
  claim_C1.2 sample_unparsable_product2 ("subs") rfl

/-- Claim C2, amended.  When the stripped base-price string parses as a
decimal `q`, the computed `priceAmountMicros` is `q * 1_000_000` cast
with `as i64`, i.e. truncated toward zero (not rounded to nearest);
when it does not parse the value is exactly 0.  (The `f64` arithmetic of
the source is modeled as exact decimal arithmetic.) -/
theorem claim_C2 :
    (∀ sp pt q,
        parse_decimal (strip_non_numeric sp.price.formatted_base_price) = some q →
        (convert_store_product_to_product sp pt).price_amount_micros
          = some (f64_as_i64 (q * 1000000)))
    ∧ ∀ sp pt,
        parse_decimal (strip_non_numeric sp.price.formatted_base_price) = none →
        (convert_store_product_to_product sp pt).price_amount_micros = some 0 := by
  constructor
  · intro sp pt q h
    show some (f64_as_i64
      ((parse_decimal (strip_non_numeric sp.price.formatted_base_price)).getD 0 * 1000000))
      = some (f64_as_i64 (q * 1000000))
    rw [h]
    rfl
  · intro sp pt h
    show some (f64_as_i64
      ((parse_decimal (strip_non_numeric sp.price.formatted_base_price)).getD 0 * 1000000))
      = some 0
    rw [h]
    show some (f64_as_i64 ((0 : ℚ) * 1000000)) = some 0
    rw [zero_mul, f64_as_i64_zero]

/-- Claim C2's failure on the code: for the base-price string
`"$2.0000009"` the stripped string parses to the decimal 2.0000009
(= 20000009/10000000), whose exact micros value is 2000000.9; the code
computes 2000000 (truncation), while the claimed
`round(parseDecimal(strip_non_numeric(s)) * 1_000_000)` is 2000001. -/
theorem claim_C2_counterexample :
    ∃ q : ℚ,
      parse_decimal (strip_non_numeric sample_truncating_product.price.formatted_base_price)
        = some q
      ∧ q = (20000009 : ℚ) / 10000000
      ∧ (convert_store_product_to_product sample_truncating_product ("inapp")).price_amount_micros
        = some 2000000
      ∧ round (q * 1000000) = 2000001 := by
  have h2 : digits_to_nat [PChar.digit 2] = 2 := rfl
  have h9 : digits_to_nat [PChar.digit 0, PChar.digit 0, PChar.digit 0, PChar.digit 0,
      PChar.digit 0, PChar.digit 0, PChar.digit 9] = 9 := rfl
  have hqval : (digits_to_nat [PChar.digit 2] : ℚ)
      + (digits_to_nat [PChar.digit 0, PChar.digit 0, PChar.digit 0, PChar.digit 0,
          PChar.digit 0, PChar.digit 0, PChar.digit 9] : ℚ) / 10 ^ 7
      = (20000009 : ℚ) / 10000000 := by
    rw [h2, h9]
    norm_num
  refine ⟨(digits_to_nat [PChar.digit 2] : ℚ)
      + (digits_to_nat [PChar.digit 0, PChar.digit 0, PChar.digit 0, PChar.digit 0,
          PChar.digit 0, PChar.digit 0, PChar.digit 9] : ℚ) / 10 ^ 7,
    rfl, hqval, ?_, ?_⟩
  · show some (f64_as_i64 (((digits_to_nat [PChar.digit 2] : ℚ)
      + (digits_to_nat [PChar.digit 0, PChar.digit 0, PChar.digit 0, PChar.digit 0,
          PChar.digit 0, PChar.digit 0, PChar.digit 9] : ℚ) / 10 ^ 7) * 1000000))
      = some 2000000
    rw [hqval]
    have hmul : (20000009 : ℚ) / 10000000 * 1000000 = 20000009 / 10 := by
      norm_num
    rw [hmul]
    simp only [f64_as_i64]
    rw [if_pos (by norm_num)]
    have hf : ⌊(20000009 : ℚ) / 10⌋ = 2000000 := by
      rw [Int.floor_eq_iff]
      norm_num
    rw [hf]
    norm_num [I64_MIN, I64_MAX]
  · rw [hqval, round_eq]
    have harg : (20000009 : ℚ) / 10000000 * 1000000 + 1 / 2 = 20000014 / 10 := by
      norm_num
    rw [harg, Int.floor_eq_iff]
    norm_num

/-- Witness for claim C2's amended theorem at the concrete base-price
string `"$1.5"`, which parses to 3/2 and yields 1,500,000 micros. -/
theorem claim_C2_witness :
    (convert_store_product_to_product sample_half_product ("inapp")).price_amount_micros
      = some (f64_as_i64 (((digits_to_nat [PChar.digit 1] : ℚ)
          + (digits_to_nat [PChar.digit 5] : ℚ) / 10 ^ 1) * 1000000)) :=
  claim_C2.1 sample_half_product ("inapp")
    ((digits_to_nat [PChar.digit 1] : ℚ) + (digits_to_nat [PChar.digit 5] : ℚ) / 10 ^ 1) rfl

/-- Claim C9.  `datetime_to_unix_millis` divides the 100-nanosecond tick
count to whole seconds, subtracts the fixed 11,644,473,600-second epoch
offset, and scales to milliseconds; at the reference tick value
126,227,808,000,000,000 (2001-01-01T00:00:00Z) it returns exactly
978307200000. -/
theorem claim_C9 :
    (∀ t : ℤ, datetime_to_unix_millis t = (Int.tdiv t 10000000 - 11644473600) * 1000)
    ∧ datetime_to_unix_millis 126227808000000000 = 978307200000 :=
  ⟨fun _ => rfl, by decide⟩

/-- Claim C10.  Every value returned by `datetime_to_unix_millis` is an
exact multiple of 1000: the tick count is divided down to whole seconds
before scaling to milliseconds, so reported times never carry
sub-second precision. -/
theorem claim_C10 :
    ∀ windows_ticks : ℤ, (1000 : ℤ) ∣ datetime_to_unix_millis windows_ticks :=
  fun t =>
    ⟨Int.tdiv t 10000000 - 11644473600, by
      show (Int.tdiv t 10000000 - 11644473600) * 1000
        = 1000 * (Int.tdiv t 10000000 - 11644473600)
      ring⟩

/-- Claim C4.  `PurchaseStateValue` deserialization succeeds exactly on
0 (purchased), 1 (canceled) and 2 (pending); every other `i32` input
fails with the descriptive decode error `"Invalid purchase state: v"`. -/
theorem claim_C4 :
    (∀ v : ℤ, except_is_ok (purchaseStateValue_deserialize v) = true
      ↔ (v = 0 ∨ v = 1 ∨ v = 2))
    ∧ purchaseStateValue_deserialize 0 = Except.ok PurchaseStateValue.purchased
    ∧ purchaseStateValue_deserialize 1 = Except.ok PurchaseStateValue.canceled
    ∧ purchaseStateValue_deserialize 2 = Except.ok PurchaseStateValue.pending
    ∧ ∀ v : ℤ, v ≠ 0 → v ≠ 1 → v ≠ 2 →
        purchaseStateValue_deserialize v
          = Except.error ("Invalid purchase state: " ++ toString v) := by
  refine ⟨?_, rfl, rfl, rfl, ?_⟩
  · intro v
    by_cases h0 : v = 0 <;> by_cases h1 : v = 1 <;> by_cases h2 : v = 2 <;>
      simp [purchaseStateValue_deserialize, except_is_ok, h0, h1, h2]
  · intro v h0 h1 h2
    simp [purchaseStateValue_deserialize, h0, h1, h2]

/-- Witness for claim C4 at the concrete rejected input 5. -/
theorem claim_C4_witness :
    purchaseStateValue_deserialize 5
      = Except.error ("Invalid purchase state: " ++ toString (5 : ℤ)) :=
  claim_C4.2.2.2.2 5 (by decide) (by decide) (by decide)

/-- Claim C3, amended.  In the src/macos.rs adapter, each of the six
operations it implements first validates the running binary's code
signature and, when that validation fails, returns the error without the
native Swift function being invoked.  (The adapter implements six of the
seven operations — it has no getPurchaseHistory — and the src/apple.rs
adapter that src/lib.rs actually selects for macOS/iOS performs no
code-signature validation at all; see the counterexample.) -/
theorem claim_C3 (env : MacosEnv) (e : String)
    (h : env.sig_check = Except.error e)
    (d1 : String → Except String InitializeResponse)
    (d2 : String → Except String GetProductsResponse)
    (d3 : String → Except String Purchase)
    (d4 : String → Except String RestorePurchasesResponse)
    (d5 : String → Except String AcknowledgePurchaseResponse)
    (d6 : String → Except String ProductStatus)
    (product_ids : List String) (product_type : String)
    (product_id : String) (offer_token : Option String)
    (purchase_token : String) :
    macos_init_op env d1 = (Except.error e, false)
    ∧ macos_get_products_op env d2 product_ids product_type
        = (Except.error e, false)
    ∧ macos_purchase_op env d3 product_id product_type offer_token
        = (Except.error e, false)
    ∧ macos_restore_purchases_op env d4 product_type
        = (Except.error e, false)
    ∧ macos_acknowledge_purchase_op env d5 purchase_token
        = (Except.error e, false)
    ∧ macos_get_product_status_op env d6 product_id product_type
        = (Except.error e, false) := by
  refine ⟨?_, ?_, ?_, ?_, ?_, ?_⟩ <;>
    simp [macos_init_op, macos_get_products_op, macos_purchase_op,
      macos_restore_purchases_op, macos_acknowledge_purchase_op,
      macos_get_product_status_op, h]

/-- Claim C3's failure on the code: in a world where the binary's code
signature does not validate, the src/apple.rs adapter — the backend
src/lib.rs selects for macOS and iOS — still invokes the native Swift
layer (shown for getPurchaseHistory and for the first of the seven
operations), so not every Apple-backend operation fails closed before
the native call. -/
theorem claim_C3_counterexample :
    apple_env_bad.sig_check
      = Except.error ("Code signature validation failed: OSStatus -67062")
    ∧ (apple_get_purchase_history_op apple_env_bad).2 = true
    ∧ (apple_init_op apple_env_bad).2 = true :=
  ⟨rfl, rfl, rfl⟩

/-- Witness for claim C3's amended theorem at a concrete environment
whose signature validation fails. -/
theorem claim_C3_witness :
    macos_init_op macos_env_bad decode_stub
      = (Except.error ("Code signature validation failed: OSStatus -67062"), false)
    ∧ macos_get_products_op macos_env_bad decode_stub ["sku_pro"] ("subs")
      = (Except.error ("Code signature validation failed: OSStatus -67062"), false)
    ∧ macos_purchase_op macos_env_bad decode_stub ("sku_pro") ("subs") (some "tok1")
      = (Except.error ("Code signature validation failed: OSStatus -67062"), false)
    ∧ macos_restore_purchases_op macos_env_bad decode_stub ("subs")
      = (Except.error ("Code signature validation failed: OSStatus -67062"), false)
    ∧ macos_acknowledge_purchase_op macos_env_bad decode_stub ("tok")
      = (Except.error ("Code signature validation failed: OSStatus -67062"), false)
    ∧ macos_get_product_status_op macos_env_bad decode_stub ("sku_pro") ("subs")
      = (Except.error ("Code signature validation failed: OSStatus -67062"), false) :=
  claim_C3 macos_env_bad ("Code signature validation failed: OSStatus -67062") rfl
    decode_stub decode_stub decode_stub decode_stub decode_stub decode_stub
    ["sku_pro"] ("subs") ("sku_pro") (some "tok1") ("tok")

/-- Claim C5.  Whatever the native add-on licenses are, every `Purchase`
in the list returned by the Windows adapter's restore operation has
`purchaseState = purchased (0)`. -/
theorem claim_C5 (env : WinLicenseEnv) (package_name : String)
    (now_millis : ℤ) (product_type : String)
    (resp : RestorePurchasesResponse)
    (h : win_restore_purchases env package_name now_millis product_type
      = Except.ok resp)
    (p : Purchase) (hp : p ∈ resp.purchases) :
    p.purchase_state = PurchaseStateValue.purchased.toInt := by
  unfold win_restore_purchases at h
  cases hctx : env.context_result with
  | error e =>
    rw [hctx] at h
    cases h
  | ok u =>
    rw [hctx] at h
    cases hal : env.app_license_result with
    | error e =>
      rw [hal] at h
      cases h
    | ok app_license =>
      rw [hal] at h
      injection h with h'
      subst h'
      have hmem := List.mem_filter.mp hp
      exact of_decide_eq_true hmem.2

/-- Witness for claim C5 at a concrete license set holding one active and
one inactive license: the restored purchase derived from the active
license has state purchased. -/
theorem claim_C5_witness :
    (convert_license_to_purchase ("app") 1000 license_a ("inapp")).purchase_state
      = PurchaseStateValue.purchased.toInt :=
  claim_C5 win_env_sample ("app") 1000 ("inapp")
    { purchases := [convert_license_to_purchase ("app") 1000 license_a ("inapp")] }
    rfl
    (convert_license_to_purchase ("app") 1000 license_a ("inapp"))
    (List.mem_singleton.mpr rfl)

/-- Claim C6.  Every `ProductStatus` the Windows adapter returns is
consistent: never `isOwned = true` together with
`purchaseState = canceled`; when `isOwned = true` and a purchase state is
present, that state is `purchased`. -/
theorem claim_C6 (env : WinLicenseEnv) (product_id product_type : String)
    (st : ProductStatus)
    (h : win_get_product_status env product_id product_type = Except.ok st) :
    (¬ (st.is_owned = true ∧ st.purchase_state = some PurchaseStateValue.canceled))
    ∧ (st.is_owned = true → st.purchase_state = some PurchaseStateValue.purchased) := by
  unfold win_get_product_status at h
  cases hctx : env.context_result with
  | error e =>
    rw [hctx] at h
    cases h
  | ok u =>
    rw [hctx] at h
    dsimp only at h
    cases hal : env.app_license_result with
    | error e =>
      rw [hal] at h
      cases h
    | ok app_license =>
      rw [hal] at h
      dsimp only at h
      cases hlk : app_license.addon_licenses.lookup product_id with
      | none =>
        rw [hlk] at h
        injection h with h'
        subst h'
        simp
      | some license =>
        rw [hlk] at h
        injection h with h'
        subst h'
        by_cases hact : license.is_active = true <;> simp [hact]

/-- Witness for claim C6 at the concrete environment holding an active
license for `prod_a`. -/
theorem claim_C6_witness :
    status_a.purchase_state = some PurchaseStateValue.purchased :=
  (claim_C6 win_env_sample ("prod_a") ("inapp") status_a rfl).2 rfl

/-- Claim C7.  When no add-on license matches the product id, the Windows
adapter's status query succeeds with `isOwned = false` and all six
optional fields unset. -/
theorem claim_C7 (env : WinLicenseEnv) (product_id product_type : String)
    (app_license : AppLicense)
    (hctx : env.context_result = Except.ok ())
    (hal : env.app_license_result = Except.ok app_license)
    (hnone : app_license.addon_licenses.lookup product_id = none) :
    win_get_product_status env product_id product_type
      = Except.ok
          { product_id := product_id
            is_owned := false
            purchase_state := none
            purchase_time := none
            expiration_time := none
            is_auto_renewing := none
            is_acknowledged := none
            purchase_token := none } := by
  unfold win_get_product_status
  rw [hctx]
  dsimp only
  rw [hal]
  dsimp only
  rw [hnone]

/-- Witness for claim C7 at the concrete empty license set. -/
theorem claim_C7_witness :
    win_get_product_status win_env_empty ("missing") ("subs")
      = Except.ok
          { product_id := "missing"
            is_owned := false
            purchase_state := none
            purchase_time := none
            expiration_time := none
            is_auto_renewing := none
            is_acknowledged := none
            purchase_token := none } :=
  claim_C7 win_env_empty ("missing") ("subs") { addon_licenses := [] } rfl rfl rfl

/-- Claim C8.  With the store context available and the requested product
present in the catalog, a native purchase status of `NotPurchased` (user
cancellation) makes the Windows purchase operation succeed with
`purchaseState = canceled (1)`, while any status other than `Succeeded`,
`AlreadyPurchased` and `NotPurchased` (network, server, unknown) makes it
return an error. -/
theorem claim_C8 (env : WinPurchaseEnv) (product_id product_type : String)
    (options : Option PurchaseOptions) (resp : GetProductsResponse)
    (hctx : env.context_result = Except.ok ())
    (hprod : env.products_result = Except.ok resp)
    (hne : resp.products.isEmpty = false) :
    (env.status = StorePurchaseStatus.NotPurchased →
      ∃ p, win_purchase env product_id product_type options = Except.ok p
        ∧ p.purchase_state = PurchaseStateValue.canceled.toInt)
    ∧ (env.status ≠ StorePurchaseStatus.Succeeded →
        env.status ≠ StorePurchaseStatus.AlreadyPurchased →
        env.status ≠ StorePurchaseStatus.NotPurchased →
        ∃ e, win_purchase env product_id product_type options = Except.error e) := by
  constructor
  · intro hs
    unfold win_purchase
    rw [hctx]
    dsimp only
    rw [hprod]
    dsimp only
    simp only [hne, Bool.false_eq_true, if_false]
    have hmap : purchase_state_of_status env.status
        = Except.ok PurchaseStateValue.canceled.toInt := by
      rw [hs]
      rfl
    rw [hmap]
    exact ⟨_, rfl, rfl⟩
  · intro h0 h1 h2
    unfold win_purchase
    rw [hctx]
    dsimp only
    rw [hprod]
    dsimp only
    simp only [hne, Bool.false_eq_true, if_false]
    unfold purchase_state_of_status
    rw [if_neg h0, if_neg h1, if_neg h2]
    by_cases h3 : env.status = StorePurchaseStatus.NetworkError
    · rw [if_pos h3]
      exact ⟨_, rfl⟩
    · rw [if_neg h3]
      by_cases h4 : env.status = StorePurchaseStatus.ServerError
      · rw [if_pos h4]
        exact ⟨_, rfl⟩
      · rw [if_neg h4]
        exact ⟨_, rfl⟩

/-- Witness for claim C8 at the concrete cancellation environment. -/
theorem claim_C8_witness :
    ∃ p, win_purchase win_purchase_env_cancel ("prod_a") ("inapp") none
        = Except.ok p
      ∧ p.purchase_state = PurchaseStateValue.canceled.toInt :=
  (claim_C8 win_purchase_env_cancel ("prod_a") ("inapp") none
    { products := [product_stub] } rfl rfl rfl).1 rfl

end Iap
